import Mathlib

/-!
Shallow embedding of `smartfix.py` (SMART self-test orchestration and
bad-sector repair driver).

Modelling conventions:
- Parsed `smartctl -j` JSON output is represented by small structures whose
  fields are `Option`-valued: `none` models an absent (or non-integer, where
  the source checks `isinstance`) JSON field; a whole-query failure
  (`smartjson` returning `None` in the source) is the `none` case of an
  `Option` wrapping the structure.
- The mutable globals `pendcount`, `sector`, `pendline`, `yn` of the script
  are threaded explicitly as a `Globals` record.
- External effects (the `hdparm` repair invocation, the `logger` call) are
  recorded as explicit event values so theorems can count invocations.
- The outcome of each externally-run selective self-test, and the data
  returned by each re-query, are supplied by oracles (`Nat → Option SmartData`
  indexed by attempt number, or a `List (Option SmartData)` consumed one
  element per re-read), mirroring the fact that each `smartctl` call is an
  independent external query.
-/

namespace Smartfix

/-- Substring test on character lists: `listInfix needle hay` is true iff
`needle` occurs contiguously inside `hay`.  Models Python's `x in s`. -/
def listInfix (needle hay : List Char) : Bool :=
  match hay with
  | [] => needle.isEmpty
  | _ :: tl => needle.isPrefixOf hay || listInfix needle tl

/-- Python `needle in hay` on strings. -/
def strContains (hay needle : String) : Bool :=
  listInfix needle.data hay.data

/-- Python `str.lower()` (ASCII case folding, which is all the source's
status strings use). -/
def strLower (s : String) : String :=
  String.mk (s.data.map Char.toLower)

/-- Parsed `smartctl -j -c` data: the nested
`ata_smart_self_test.status` object.  `none` fields model absent (or
non-integer) JSON fields. -/
structure CStatus where
  str : Option String
  remaining_percent : Option Int
  value : Option Int
deriving Repr, DecidableEq

/-- The normalized snapshot dict built by `get_selftest_status`. -/
structure StatusSnapshot where
  in_progress : Bool
  remaining_percent : Option Int
  status_string : String
  raw_value : Option Int
deriving Repr, DecidableEq

/-- `get_selftest_status` (smartfix.py lines 83-111).  The argument is the
parsed `smartctl -j -c` output; `none` models `smartjson` returning `None`
(total query failure), in which case the defaulted snapshot is returned. -/
def get_selftest_status (data : Option CStatus) : StatusSnapshot :=
  match data with
  | none => { in_progress := false, remaining_percent := none, status_string := "", raw_value := none }
  | some st =>
    let s_str := st.str.getD ""
    let in_prog := strContains (strLower s_str) "in progress" || st.value == some 249
    { in_progress := in_prog
      remaining_percent := st.remaining_percent
      status_string := s_str
      raw_value := st.value }

/-- One record of `ata_smart_attributes.table`: the `id` and `raw.value`
fields the source reads (absent fields are `none`). -/
structure SmartAttr where
  id : Option Int
  raw_value : Option Int
deriving Repr, DecidableEq

/-- One record of `ata_smart_self_test_log.standard.table`: the
`status.string` and `lba` fields the source reads. -/
structure SelfTestEntry where
  status_string : Option String
  lba : Option Int
deriving Repr, DecidableEq

/-- Parsed `smartctl -j -A -l selftest` data.  `attributes = none` models a
missing `ata_smart_attributes.table` (the source's `try/except` around the
attribute loop); likewise `selftest_table = none` for a missing self-test
log table. -/
structure SmartData where
  attributes : Option (List SmartAttr)
  selftest_table : Option (List SelfTestEntry)
deriving Repr, DecidableEq

/-- The value the script stores in the global `yn`, which is assigned both
integer and string values in the source. -/
inductive YnVal where
  | str (s : String)
  | num (n : Int)
deriving Repr, DecidableEq

/-- The script's mutable globals touched by `refresh_pending_and_failure`. -/
structure Globals where
  pendcount : Int
  sector : Int
  pendline : String
  yn : YnVal
deriving Repr, DecidableEq

/-- Initial global state (smartfix.py lines 31-35): `sector = 0`,
`lastsector = -1` (kept separately), `pendcount = -1`, empty strings. -/
def initGlobals : Globals :=
  { pendcount := -1, sector := 0, pendline := "", yn := YnVal.str "" }

/-- First attribute with `id == 197` in the attribute table (the source's
`for attribute in ...: if attribute.get("id") == 197: ... break`). -/
def findAttr197 : List SmartAttr → Option SmartAttr
  | [] => none
  | a :: rest => if a.id = some 197 then some a else findAttr197 rest

/-- First self-test log entry whose status string equals
`"Completed: read failure"` (the source's scan with `break`). -/
def findReadFailure : List SelfTestEntry → Option SelfTestEntry
  | [] => none
  | e :: rest =>
    if e.status_string = some "Completed: read failure" then some e
    else findReadFailure rest

/-- The pending-sector count `refresh_pending_and_failure` derives from
attribute 197: `-1` when the attribute (or its raw value) is missing. -/
def pendcount_of (d : SmartData) : Int :=
  match d.attributes with
  | none => -1
  | some t =>
    match findAttr197 t with
    | none => -1
    | some a => a.raw_value.getD (-1)

/-- The `sector_found` value of `refresh_pending_and_failure`: the `lba` of
the first `"Completed: read failure"` log entry, provided it is present and
positive; `none` otherwise. -/
def found_sector (d : SmartData) : Option Int :=
  match d.selftest_table with
  | none => none
  | some t =>
    match findReadFailure t with
    | none => none
    | some e =>
      match e.lba with
      | none => none
      | some l => if l > 0 then some l else none

/-- `refresh_pending_and_failure` (smartfix.py lines 190-246).  Returns the
source's boolean result paired with the updated globals.  Note that when no
positive read-failure LBA is found, `sector` and `pendline` are left at
their previous values (only `pendcount`, and possibly `yn`, change). -/
def refresh_pending_and_failure (data : Option SmartData) (g : Globals) : Bool × Globals :=
  match data with
  | none => (false, g)
  | some d =>
    match found_sector d with
    | some s =>
      (true, { pendcount := pendcount_of d, sector := s,
               pendline := "Completed: read failure", yn := YnVal.num s })
    | none =>
      if g.sector = 0 then
        (true, { g with pendcount := pendcount_of d,
                        yn := YnVal.str "No pending sectors or read failures found" })
      else
        (true, { g with pendcount := pendcount_of d })

/-- `get_last_selftest_entry` (smartfix.py lines 149-164): status string and
LBA of the most recent self-test log entry, `("", 0)` on any failure. -/
def get_last_selftest_entry (data : Option SmartData) : String × Int :=
  match data with
  | none => ("", 0)
  | some d =>
    match d.selftest_table with
    | none => ("", 0)
    | some [] => ("", 0)
    | some (e :: _) => (e.status_string.getD "", e.lba.getD 0)

/-- External side effects of `fix_sector`: the `hdparm --repair-sector`
invocation and the `logger` line. -/
inductive ToolCall where
  | hdparm_repair (sec : Int)
  | logger_line
deriving Repr, DecidableEq

/-- Result of a `fix_sector` call: the raised exception for sector 0, the
skip branch, or an actual repair attempt carrying `hdparm`'s exit code. -/
inductive FixOutcome where
  | error_zero_sector
  | skipped
  | repaired (code : Int)
deriving Repr, DecidableEq

/-- `fix_sector` (smartfix.py lines 248-262).  `hdparm_code` is the exit
code the external tool would return.  Result: outcome, new `lastsector`,
and the external calls performed. -/
def fix_sector (hdparm_code : Int) (sector lastsector : Int) :
    FixOutcome × Int × List ToolCall :=
  if sector = 0 then (FixOutcome.error_zero_sector, lastsector, [])
  else if sector = lastsector then (FixOutcome.skipped, lastsector, [])
  else (FixOutcome.repaired hdparm_code, sector,
        [ToolCall.hdparm_repair sector, ToolCall.logger_line])

/-- True exactly on the `hdparm --repair-sector` event. -/
def is_repair_call : ToolCall → Bool
  | ToolCall.hdparm_repair _ => true
  | ToolCall.logger_line => false

/-- Sectors of the repair-tool invocations in an event list. -/
def repair_sectors (evs : List ToolCall) : List Int :=
  evs.filterMap fun ev =>
    match ev with
    | ToolCall.hdparm_repair s => some s
    | ToolCall.logger_line => none

/-- A sequence of `fix_sector` calls, each given as (sector, hdparm exit
code), threaded through `lastsector`; records per call the requested
sector, the outcome, and the events emitted. -/
def run_fixes : List (Int × Int) → Int → List (Int × FixOutcome × List ToolCall)
  | [], _ => []
  | (s, c) :: rest, ls =>
    let fr := fix_sector c s ls
    (s, fr.1, fr.2.2) :: run_fixes rest fr.2.1

/-- Every `skipped` outcome in the trace concerns a sector on which an
actual repair was attempted earlier (`seen` carries the sectors repaired so
far). -/
def skips_justified : List (Int × FixOutcome × List ToolCall) → List Int → Prop
  | [], _ => True
  | (s, r, _) :: rest, seen =>
    (r = FixOutcome.skipped → s ∈ seen) ∧
    skips_justified rest
      (match r with
       | FixOutcome.repaired _ => s :: seen
       | _ => seen)

/-- The interrupted/aborted/host-reset test of
`run_verify_selective_around` (smartfix.py line 314), applied to a raw
status string. -/
def is_interrupted_status (s : String) : Bool :=
  strContains (strLower s) "interrupted" || strContains (strLower s) "aborted" ||
    strContains (strLower s) "host reset"

/-- Result of the verify loop: the returned outcome string, the number of
attempts made, the list of sleep durations performed between attempts, and
the final globals. -/
structure VerifyRun where
  outcome : String
  attempts : Nat
  sleeps : List Nat
  final : Globals
deriving Repr, DecidableEq

/-- The retry loop of `run_verify_selective_around` (smartfix.py lines
303-330).  `entryAt n` is the `smartctl` data read by
`get_last_selftest_entry` after the selective test of attempt `n`;
`refreshAt n` the data of the `refresh_pending_and_failure` call of attempt
`n`.  `attempts` and `sleeps` accumulate the loop state. -/
def verify_loop (entryAt refreshAt : Nat → Option SmartData)
    (retries wait : Nat) (g : Globals) (attempts : Nat) (sleeps : List Nat) :
    VerifyRun :=
  let a := attempts + 1
  let status_str := (get_last_selftest_entry (entryAt a)).1
  if is_interrupted_status status_str then
    if h : a ≤ retries then
      verify_loop entryAt refreshAt retries wait g a (sleeps ++ [wait])
    else
      { outcome := "interrupted", attempts := a, sleeps := sleeps, final := g }
  else
    let g1 := (refresh_pending_and_failure (refreshAt a) g).2
    if g1.sector = 0 then
      { outcome := "clear", attempts := a, sleeps := sleeps, final := g1 }
    else
      { outcome := "failed", attempts := a, sleeps := sleeps, final := g1 }
termination_by retries + 1 - attempts
decreasing_by omega

/-- `run_verify_selective_around` (smartfix.py lines 293-330): computes the
clamped LBA range and runs the retry loop.  Returns the range together with
the loop's result. -/
def run_verify_selective_around (lba delta : Int)
    (entryAt refreshAt : Nat → Option SmartData)
    (retries wait : Nat) (g : Globals) : (Int × Int) × VerifyRun :=
  let start := if lba - delta < 0 then 0 else lba - delta
  let stop := lba + delta
  ((start, stop), verify_loop entryAt refreshAt retries wait g 0 [])

/-- External inputs consumed by the one-shot branch of `main`: the repair
tool's exit code, the data of each re-query, the answers to the
confirmation prompts, and the oracles and parameters of a possible
`run_verify_selective_around` call. -/
structure OneShotEnv where
  hdcode : Int
  read_after_fix : Option SmartData
  confirm_verify : Bool
  verify_entryAt : Nat → Option SmartData
  verify_refreshAt : Nat → Option SmartData
  confirm_short_after_interrupt : Bool
  read_after_short1 : Option SmartData
  confirm_short_instead : Bool
  read_after_short2 : Option SmartData
  retries : Nat
  wait : Nat

/-- Observable outcome of the one-shot branch: repair-tool invocations
(their target sectors, in order), the key report line printed, and the
process exit code. -/
structure OneShotResult where
  repairs : List Int
  message : String
  exit_code : Nat
deriving Repr, DecidableEq

/-- The one-shot branch of `main` (smartfix.py lines 380-438), entered when
`--skip-short` and `--fix-first-error` are both set.  `g` is the global
state after the initial `refresh_pending_and_failure`; `ls` is
`lastsector`. -/
def one_shot (env : OneShotEnv) (g : Globals) (ls : Int) : OneShotResult :=
  if g.sector ≠ 0 ∧ g.sector > 0 then
    let fr := fix_sector env.hdcode g.sector ls
    let repairs := repair_sectors fr.2.2
    let repaired_lba := fr.2.1
    let g1 := (refresh_pending_and_failure env.read_after_fix g).2
    let post_lba := g1.sector
    if post_lba = 0 then
      { repairs := repairs,
        message := "No further sectors reported as failed in SMART log.", exit_code := 0 }
    else if post_lba = repaired_lba then
      if env.confirm_verify then
        let vr := (run_verify_selective_around repaired_lba 5
          env.verify_entryAt env.verify_refreshAt env.retries env.wait g1).2
        if vr.outcome = "interrupted" then
          if env.confirm_short_after_interrupt then
            let g2 := (refresh_pending_and_failure env.read_after_short1 vr.final).2
            if g2.sector = 0 then
              { repairs := repairs,
                message := "After short test: no failing LBA reported.", exit_code := 0 }
            else
              { repairs := repairs,
                message := "After short test: first failing LBA reported.", exit_code := 0 }
          else
            { repairs := repairs,
              message := "Selective verify repeatedly interrupted.", exit_code := 0 }
        else
          { repairs := repairs, message := vr.outcome, exit_code := 0 }
      else if env.confirm_short_instead then
        let g2 := (refresh_pending_and_failure env.read_after_short2 g1).2
        if g2.sector = 0 then
          { repairs := repairs,
            message := "After short test: no failing LBA reported.", exit_code := 0 }
        else
          { repairs := repairs,
            message := "After short test: first failing LBA reported.", exit_code := 0 }
      else
        { repairs := repairs,
          message := "Verification skipped at user request.", exit_code := 0 }
    else
      { repairs := repairs,
        message := "A different failing LBA is now reported.", exit_code := 0 }
  else
    { repairs := [],
      message := "No LBA_of_first_error reported by SMART; nothing to fix in one-shot mode.",
      exit_code := 0 }

/-- The counted repair loop of `main` (smartfix.py lines 447-465).
`reads` supplies the data of each in-loop `refresh_pending_and_failure`
re-query (an exhausted list behaves like a failed query).  Returns the
repair-tool invocations made (in order) and the final globals. -/
def repair_loop (hdcode : Int) :
    List (Option SmartData) → Int → Globals → Int → List Int → List Int × Globals
  | reads, pendcounter, g, ls, acc =>
    if pendcounter > 0 then
      if g.sector ≠ 0 then
        let fr := fix_sector hdcode g.sector ls
        match fr.1 with
        | FixOutcome.error_zero_sector => (acc, g)
        | _ =>
          let acc1 := acc ++ repair_sectors fr.2.2
          let ls1 := fr.2.1
          let pend1 := pendcounter - 1
          match reads with
          | [] => (acc1, g)
          | r :: rest =>
            match refresh_pending_and_failure r g with
            | (false, g1) => (acc1, g1)
            | (true, g1) =>
              if g1.sector = 0 then (acc1, g1)
              else repair_loop hdcode rest pend1 g1 ls1 acc1
      else (acc, g)
    else (acc, g)

/-- The counted-loop tail of `main` (smartfix.py lines 440-465): the fatal
guard on an unknown pending count, then the loop with budget
`g.pendcount`. -/
def main_counted (hdcode : Int) (g : Globals) (reads : List (Option SmartData))
    (ls : Int) : Except String (List Int × Globals) :=
  if g.pendcount = -1 then
    Except.error ("Pending sector count is negative or unavailable: " ++ toString g.pendcount)
  else
    Except.ok (repair_loop hdcode reads g.pendcount g ls [])

/-- Result of `main` after the initial tests and refresh: either the
one-shot branch ran (and called `sys.exit` with the given code), or the
counted loop ran to completion. -/
inductive MainResult where
  | exited (code : Nat) (r : OneShotResult)
  | counted (repairs : List Int) (g : Globals)
deriving Repr, DecidableEq

/-- Mode dispatch of `main` (smartfix.py lines 379-465): the one-shot
branch is taken exactly when `--skip-short` and `--fix-first-error` are
both set; otherwise the counted loop runs. -/
def main_dispatch (skip_short fix_first : Bool) (env : OneShotEnv)
    (reads : List (Option SmartData)) (g : Globals) (ls : Int) :
    Except String MainResult :=
  if skip_short && fix_first then
    Except.ok (MainResult.exited 0 (one_shot env g ls))
  else
    (main_counted env.hdcode g reads ls).map fun p => MainResult.counted p.1 p.2

/-- Repair-tool invocations recorded in a `MainResult`. -/
def repairs_of : MainResult → List Int
  | MainResult.exited _ r => r.repairs
  | MainResult.counted reps _ => reps

/-- A default one-shot environment for runs that never enter the one-shot
branch (all oracles empty, all confirmations declined). -/
def envDefault : OneShotEnv :=
  { hdcode := 0, read_after_fix := none, confirm_verify := false,
    verify_entryAt := fun _ => none, verify_refreshAt := fun _ => none,
    confirm_short_after_interrupt := false, read_after_short1 := none,
    confirm_short_instead := false, read_after_short2 := none,
    retries := 2, wait := 10 }

/-- Fixture: SMART data whose attribute table reports `pend` pending
sectors (attribute 197) and whose self-test log's most recent entry is a
read failure at `lba`. -/
def fixRF (pend lba : Int) : SmartData :=
  { attributes := some [{ id := some 197, raw_value := some pend }],
    selftest_table := some [{ status_string := some "Completed: read failure", lba := some lba }] }

/-- Fixture: SMART data reporting `pend` pending sectors and a clean
self-test log (no read-failure entry). -/
def fixNoFail (pend : Int) : SmartData :=
  { attributes := some [{ id := some 197, raw_value := some pend }],
    selftest_table := some [{ status_string := some "Completed without error", lba := some 0 }] }

/-- Fixture: SMART data whose most recent self-test log entry reports an
aborted test (used as a perpetually-interrupted verify oracle). -/
def fixAborted : SmartData :=
  { attributes := none,
    selftest_table := some [{ status_string := some "Aborted by host", lba := some 0 }] }

/-- Globals after the initial refresh of the C7 fixture sequence
(pending count 3, failing LBA 500). -/
def c7_g0 : Globals :=
  (refresh_pending_and_failure (some (fixRF 3 500)) initGlobals).2

/-- The three in-loop re-reads of the C7 fixture sequence. -/
def c7_reads : List (Option SmartData) :=
  [some (fixRF 2 501), some (fixRF 1 502), some (fixNoFail 0)]

/-- Self-test table with no read-failure entry, for the C1 counterexample. -/
def c1_table : List SelfTestEntry :=
  [{ status_string := some "Completed without error", lba := some 0 }]

/-- SMART data for the C1 counterexample: pending count 5, no read-failure
entry in the self-test log. -/
def c1_data : SmartData :=
  { attributes := some [{ id := some 197, raw_value := some 5 }],
    selftest_table := some c1_table }

/-- Globals from an earlier query that had reported failing LBA 500, for
the C1 counterexample. -/
def c1_prev : Globals :=
  { pendcount := 7, sector := 500, pendline := "Completed: read failure", yn := YnVal.num 500 }

/-- Helper: `findReadFailure` only returns an entry of the table, and that
entry's status string is exactly `"Completed: read failure"`. -/
theorem findReadFailure_mem (t : List SelfTestEntry) (e : SelfTestEntry)
    (h : findReadFailure t = some e) :
    e ∈ t ∧ e.status_string = some "Completed: read failure" := by
  induction t with
  | nil => simp [findReadFailure] at h
  | cons a rest ih =>
    rw [findReadFailure] at h
    split at h
    · next heq =>
      cases h
      exact ⟨List.mem_cons_self _ _, heq⟩
    · next hne =>
      rcases ih h with ⟨hm, hs⟩
      exact ⟨List.mem_cons_of_mem a hm, hs⟩

/-- C2: for every status snapshot returned by `get_selftest_status`,
`in_progress` is true iff the status string contains the in-progress
textual marker (case-insensitively) or the raw numeric status value equals
the sentinel 249. -/
theorem in_progress_iff_marker_or_sentinel (data : Option CStatus) :
    (get_selftest_status data).in_progress = true ↔
      (strContains (strLower (get_selftest_status data).status_string) "in progress" = true ∨
        (get_selftest_status data).raw_value = some 249) := by
  cases data with
  | none => decide
  | some st => simp [get_selftest_status]

/-- C3: for every positive sector `s`, calling `fix_sector` twice in
succession with the same sector invokes the repair tool at most once: the
second call is skipped, emits no external call (neither `hdparm` nor the
log line), and `lastsector` equals `s` after the first call. -/
theorem fix_sector_second_call_skipped (s ls c1 c2 : Int) (hs : 0 < s) :
    (fix_sector c2 s (fix_sector c1 s ls).2.1).1 = FixOutcome.skipped ∧
    (fix_sector c2 s (fix_sector c1 s ls).2.1).2.2 = [] ∧
    ((fix_sector c1 s ls).2.2 ++ (fix_sector c2 s (fix_sector c1 s ls).2.1).2.2).countP
      is_repair_call ≤ 1 ∧
    (fix_sector c1 s ls).2.1 = s := by
  have h0 : s ≠ 0 := by omega
  by_cases hsl : s = ls
  · subst hsl
    simp [fix_sector, h0]
  · simp [fix_sector, h0, hsl, List.countP_cons, is_repair_call]

/-- Witness for C3 at sector 5 from the initial `lastsector = -1`. -/
theorem fix_sector_second_call_skipped_witness :
    (fix_sector 0 5 (fix_sector 0 5 (-1)).2.1).1 = FixOutcome.skipped ∧
    (fix_sector 0 5 (fix_sector 0 5 (-1)).2.1).2.2 = [] ∧
    ((fix_sector 0 5 (-1)).2.2 ++ (fix_sector 0 5 (fix_sector 0 5 (-1)).2.1).2.2).countP
      is_repair_call ≤ 1 ∧
    (fix_sector 0 5 (-1)).2.1 = 5 :=
  fix_sector_second_call_skipped 5 (-1) 0 0 (by norm_num)

/-- C5: for nonnegative `lba` and `delta`, the selective-verify range is
`[max 0 (lba - delta), lba + delta]`, and its start is never negative. -/
theorem verify_range_clamped (lba delta : Int) (h1 : 0 ≤ lba) (h2 : 0 ≤ delta)
    (entryAt refreshAt : Nat → Option SmartData) (retries wait : Nat) (g : Globals) :
    (run_verify_selective_around lba delta entryAt refreshAt retries wait g).1 =
      (max 0 (lba - delta), lba + delta) ∧
    0 ≤ (run_verify_selective_around lba delta entryAt refreshAt retries wait g).1.1 := by
  unfold run_verify_selective_around
  constructor
  · dsimp only
    have hm : (if lba - delta < 0 then (0 : Int) else lba - delta) = max 0 (lba - delta) := by
      rw [max_def]
      split_ifs <;> omega
    rw [hm]
  · dsimp only
    split_ifs <;> omega

/-- Witness for C5: `lba = 100, delta = 5` gives `[95, 105]` and
`lba = 3, delta = 5` gives `[0, 8]`. -/
theorem verify_range_clamped_witness :
    (run_verify_selective_around 100 5 (fun _ => none) (fun _ => none) 2 10 initGlobals).1 =
      (95, 105) ∧
    (run_verify_selective_around 3 5 (fun _ => none) (fun _ => none) 2 10 initGlobals).1 =
      (0, 8) := by
  constructor
  · have h := (verify_range_clamped 100 5 (by norm_num) (by norm_num)
      (fun _ => none) (fun _ => none) 2 10 initGlobals).1
    rw [h]
    decide
  · have h := (verify_range_clamped 3 5 (by norm_num) (by norm_num)
      (fun _ => none) (fun _ => none) 2 10 initGlobals).1
    rw [h]
    decide

/-- C6: in counted-loop mode, a pending count of -1 at loop start is a
fatal error with no repair attempt, while a pending count of 0 simply runs
zero iterations. -/
theorem counted_loop_pendcount_guard (skip_short fix_first : Bool) (env : OneShotEnv)
    (reads : List (Option SmartData)) (g : Globals) (ls : Int)
    (hmode : (skip_short && fix_first) = false) :
    (g.pendcount = -1 →
      main_dispatch skip_short fix_first env reads g ls =
        Except.error ("Pending sector count is negative or unavailable: " ++
          toString g.pendcount)) ∧
    (g.pendcount = 0 →
      main_dispatch skip_short fix_first env reads g ls =
        Except.ok (MainResult.counted [] g)) := by
  constructor
  · intro hp
    simp [main_dispatch, hmode, main_counted, hp, Except.map]
  · intro hp
    rw [main_dispatch]
    simp only [hmode, Bool.false_eq_true, if_false]
    rw [main_counted, hp]
    simp only [reduceCtorEq, if_false, if_neg (by norm_num : ¬ (0 : Int) = -1)]
    rw [repair_loop]
    simp [Except.map]

/-- Witness for C6: unknown pending count errors out; zero pending count
completes with no repairs. -/
theorem counted_loop_pendcount_guard_witness :
    main_dispatch false false envDefault [] initGlobals (-1) =
      Except.error "Pending sector count is negative or unavailable: -1" ∧
    main_dispatch false false envDefault [] { initGlobals with pendcount := 0 } (-1) =
      Except.ok (MainResult.counted [] { initGlobals with pendcount := 0 }) := by
  constructor
  · have h := (counted_loop_pendcount_guard false false envDefault [] initGlobals (-1) rfl).1 rfl
    rw [h]
    rfl
  · exact (counted_loop_pendcount_guard false false envDefault []
      { initGlobals with pendcount := 0 } (-1) rfl).2 rfl

/-- C7: in counted-loop mode, the fixture sequence with pending counts
3, 2, 1, 0 and failing LBAs 500, 501, 502, none repairs sectors 500, 501,
502 in that order and then stops without a fourth repair attempt. -/
theorem counted_loop_fixture_trace :
    (main_dispatch false false envDefault c7_reads c7_g0 (-1)).map repairs_of =
      Except.ok [500, 501, 502] := by
  rfl

/-- C8 counterexample: a total query failure in `get_selftest_status` is
returned as the ordinary snapshot with default field values, not reported
as an error. -/
theorem status_query_failure_returns_default_snapshot :
    get_selftest_status none =
      { in_progress := false, remaining_percent := none, status_string := "",
        raw_value := none } := rfl

/-- C8 amended: `refresh_pending_and_failure` reports a total query failure
to its caller (returns false, leaving the globals untouched), but
`get_selftest_status` returns the defaulted snapshot instead of an
error. -/
theorem query_failure_reporting_amended (g : Globals) :
    refresh_pending_and_failure none g = (false, g) ∧
    get_selftest_status none =
      { in_progress := false, remaining_percent := none, status_string := "",
        raw_value := none } :=
  ⟨rfl, rfl⟩

/-- C9: in one-shot mode (`--skip-short` with `--fix-first-error`), when
the refreshed failing LBA is 0 the driver performs zero repair attempts,
reports that there is nothing to fix, and exits with code 0. -/
theorem one_shot_nothing_to_fix (env : OneShotEnv) (reads : List (Option SmartData))
    (g : Globals) (ls : Int) (h : g.sector = 0) :
    main_dispatch true true env reads g ls =
      Except.ok (MainResult.exited 0
        { repairs := [],
          message := "No LBA_of_first_error reported by SMART; nothing to fix in one-shot mode.",
          exit_code := 0 }) := by
  simp [main_dispatch, one_shot, h]

/-- Witness for C9 from the initial globals (failing LBA 0). -/
theorem one_shot_nothing_to_fix_witness :
    main_dispatch true true envDefault [] initGlobals (-1) =
      Except.ok (MainResult.exited 0
        { repairs := [],
          message := "No LBA_of_first_error reported by SMART; nothing to fix in one-shot mode.",
          exit_code := 0 }) :=
  one_shot_nothing_to_fix envDefault [] initGlobals (-1) rfl

/-- C1 counterexample: a query whose self-test table has no
`"Completed: read failure"` entry leaves the previously reported failing
LBA (500) in place instead of resetting it to 0. -/
theorem stale_sector_counterexample :
    (∀ e ∈ c1_table, ¬ e.status_string = some "Completed: read failure") ∧
    ¬ (refresh_pending_and_failure (some c1_data) c1_prev).2.sector = 0 ∧
    (refresh_pending_and_failure (some c1_data) c1_prev).2.sector = 500 := by
  decide

/-- C1 amended: on a successful query, `pendcount` is always taken from
that query, but when the self-test table has no read-failure entry with a
positive LBA, `sector` and `pendline` retain their values from earlier
queries instead of being reset to 0. -/
theorem refresh_no_failure_keeps_previous_lba (d : SmartData) (g : Globals)
    (h : ∀ e ∈ d.selftest_table.getD [],
      e.status_string = some "Completed: read failure" → ∀ l, e.lba = some l → l ≤ 0) :
    (refresh_pending_and_failure (some d) g).1 = true ∧
    (refresh_pending_and_failure (some d) g).2.sector = g.sector ∧
    (refresh_pending_and_failure (some d) g).2.pendline = g.pendline ∧
    (refresh_pending_and_failure (some d) g).2.pendcount = pendcount_of d := by
  have hfs : found_sector d = none := by
    unfold found_sector
    cases ht : d.selftest_table with
    | none => rfl
    | some t =>
      cases hf : findReadFailure t with
      | none => simp only [hf]
      | some e =>
        rcases findReadFailure_mem t e hf with ⟨hm, hs⟩
        have hl := h e (by rw [ht]; exact hm) hs
        cases hle : e.lba with
        | none => simp only [hf, hle]
        | some l =>
          have hneg := hl l hle
          simp only [hf, hle]
          rw [if_neg (by omega)]
  rw [refresh_pending_and_failure]
  rw [hfs]
  by_cases hz : g.sector = 0 <;> simp [hz]

/-- Witness for C1's amended claim at the counterexample fixture. -/
theorem refresh_no_failure_keeps_previous_lba_witness :
    (refresh_pending_and_failure (some c1_data) c1_prev).1 = true ∧
    (refresh_pending_and_failure (some c1_data) c1_prev).2.sector = c1_prev.sector ∧
    (refresh_pending_and_failure (some c1_data) c1_prev).2.pendline = c1_prev.pendline ∧
    (refresh_pending_and_failure (some c1_data) c1_prev).2.pendcount = pendcount_of c1_data :=
  refresh_no_failure_keeps_previous_lba c1_data c1_prev (by decide)

/-- Helper for C4: when every attempt's most recent self-test entry reads
as interrupted, the verify loop retries until the attempt counter exceeds
`retries`, sleeping `wait` once per retry, and returns `"interrupted"`
leaving the globals untouched. -/
theorem verify_loop_all_interrupted (entryAt refreshAt : Nat → Option SmartData)
    (retries wait : Nat)
    (h : ∀ n, is_interrupted_status (get_last_selftest_entry (entryAt n)).1 = true) :
    ∀ k attempts sleeps g, attempts + k = retries →
      verify_loop entryAt refreshAt retries wait g attempts sleeps =
        { outcome := "interrupted", attempts := retries + 1,
          sleeps := sleeps ++ List.replicate k wait, final := g } := by
  intro k
  induction k with
  | zero =>
    intro attempts sleeps g hk
    have ha : attempts = retries := by omega
    subst ha
    rw [verify_loop]
    simp only [h, if_true]
    rw [dif_neg (by omega)]
    simp
  | succ k ih =>
    intro attempts sleeps g hk
    have hlt : attempts + 1 ≤ retries := by omega
    rw [verify_loop]
    simp only [h, if_true]
    rw [dif_pos hlt]
    rw [ih (attempts + 1) (sleeps ++ [wait]) g (by omega)]
    simp [List.replicate_succ]

/-- C4: when every selective-verify attempt reads an interrupted, aborted,
or host-reset status, `run_verify_selective_around` returns
`"interrupted"` after exactly `retries + 1` attempts, with exactly
`retries` sleeps of `wait` seconds between consecutive attempts. -/
theorem verify_always_interrupted (lba delta : Int)
    (entryAt refreshAt : Nat → Option SmartData) (retries wait : Nat) (g : Globals)
    (h : ∀ n, is_interrupted_status (get_last_selftest_entry (entryAt n)).1 = true) :
    (run_verify_selective_around lba delta entryAt refreshAt retries wait g).2 =
      { outcome := "interrupted", attempts := retries + 1,
        sleeps := List.replicate retries wait, final := g } := by
  unfold run_verify_selective_around
  dsimp only
  have hrun := verify_loop_all_interrupted entryAt refreshAt retries wait h retries 0 [] g
    (by omega)
  simpa using hrun

/-- Witness for C4: an always-aborted fixture with 2 retries and a
10-second wait makes 3 attempts and 2 sleeps. -/
theorem verify_always_interrupted_witness :
    (∀ n : Nat,
      is_interrupted_status (get_last_selftest_entry ((fun _ => some fixAborted) n)).1 = true) ∧
    (run_verify_selective_around 100 5 (fun _ => some fixAborted) (fun _ => none)
        2 10 initGlobals).2 =
      { outcome := "interrupted", attempts := 3, sleeps := List.replicate 2 10,
        final := initGlobals } := by
  constructor
  · intro n
    show is_interrupted_status (get_last_selftest_entry (some fixAborted)).1 = true
    decide
  · exact verify_always_interrupted 100 5 (fun _ => some fixAborted) (fun _ => none)
      2 10 initGlobals
      (fun _ => show is_interrupted_status (get_last_selftest_entry (some fixAborted)).1 = true
        by decide)

/-- Helper for C10: starting from a `lastsector` that is either the -1
sentinel or a sector already repaired (listed in `seen`), every skip in a
trace of positive-sector `fix_sector` calls concerns a previously repaired
sector. -/
theorem run_fixes_skips_justified_aux :
    ∀ (cmds : List (Int × Int)) (ls : Int) (seen : List Int),
      (∀ p ∈ cmds, 0 < p.1) → (ls = -1 ∨ ls ∈ seen) →
      skips_justified (run_fixes cmds ls) seen := by
  intro cmds
  induction cmds with
  | nil =>
    intro ls seen _ _
    rw [run_fixes, skips_justified]
    trivial
  | cons p rest ih =>
    intro ls seen hpos hls
    obtain ⟨s, c⟩ := p
    have hs : 0 < s := hpos (s, c) (List.mem_cons_self _ _)
    have hrest : ∀ q ∈ rest, 0 < q.1 := fun q hq => hpos q (List.mem_cons_of_mem _ hq)
    have hs0 : ¬ s = 0 := by omega
    rw [run_fixes]
    by_cases hsl : s = ls
    · subst hsl
      have hfix : fix_sector c s s = (FixOutcome.skipped, s, []) := by
        simp [fix_sector, hs0]
      rw [hfix]
      dsimp only
      show (FixOutcome.skipped = FixOutcome.skipped → s ∈ seen) ∧
        skips_justified (run_fixes rest s) seen
      constructor
      · intro _
        rcases hls with h1 | h2
        · exfalso
          omega
        · exact h2
      · exact ih s seen hrest hls
    · have hfix : fix_sector c s ls =
          (FixOutcome.repaired c, s, [ToolCall.hdparm_repair s, ToolCall.logger_line]) := by
        simp [fix_sector, hs0, hsl]
      rw [hfix]
      dsimp only
      show (FixOutcome.repaired c = FixOutcome.skipped → s ∈ seen) ∧
        skips_justified (run_fixes rest s) (s :: seen)
      constructor
      · intro hcon
        exact absurd hcon (by simp)
      · exact ih s (s :: seen) hrest (Or.inr (List.mem_cons_self _ _))

/-- C10: from the initial `lastsector = -1`, the first `fix_sector` call
with a positive sector is never skipped, and every skipped call in a run
concerns a sector actually repaired earlier in that run. -/
theorem first_fix_never_skipped (cmds : List (Int × Int))
    (hpos : ∀ p ∈ cmds, 0 < p.1) :
    skips_justified (run_fixes cmds (-1)) [] ∧
    (∀ s c rest, cmds = (s, c) :: rest →
      (fix_sector c s (-1)).1 ≠ FixOutcome.skipped) := by
  constructor
  · exact run_fixes_skips_justified_aux cmds (-1) [] hpos (Or.inl rfl)
  · intro s c rest hc
    have hmem : (s, c) ∈ cmds := by
      rw [hc]
      exact List.mem_cons_self _ _
    have hs : 0 < s := hpos (s, c) hmem
    have hs0 : ¬ s = 0 := by omega
    have hsm : ¬ s = -1 := by omega
    simp [fix_sector, hs0, hsm]

/-- Witness for C10: the two-call run on sector 5 from `lastsector = -1`. -/
theorem first_fix_never_skipped_witness :
    skips_justified (run_fixes [((5 : Int), (0 : Int)), (5, 0)] (-1)) [] ∧
    (∀ s c rest, [((5 : Int), (0 : Int)), (5, 0)] = (s, c) :: rest →
      (fix_sector c s (-1)).1 ≠ FixOutcome.skipped) :=
  first_fix_never_skipped [(5, 0), (5, 0)] (by decide)

end Smartfix
